import Mathlib

/-!
Shallow embedding of the DeepLabCut PyTorch configuration utilities
(`deeplabcut/pose_estimation_pytorch/config/utils.py`), the top-down
keypoint predictor
(`deeplabcut/pose_estimation_pytorch/models/predictors/top_down_prediction.py`)
and the training command-line entry point
(`deeplabcut/pose_estimation_pytorch/apis/train.py`), together with
theorems settling the specification claims about them.

Configuration values (read from YAML) are modelled by the inductive type
`CValue`: strings, integers, dicts (association lists in insertion order,
as Python dicts preserve insertion order), lists, and `other` for any
further primitive (float, bool, None, ...), which the code passes through
untouched.  Python exceptions are modelled by `Except PyError`.
-/

/-- A Python configuration value: `str`, `int`, `dict`, `list`, or any
other primitive (`other` carries its Python type name and an opaque tag). -/
inductive CValue where
  | str (s : String)
  | int (n : Int)
  | other (ty : String) (tag : Nat)
  | dict (entries : List (String × CValue))
  | list (items : List CValue)
  deriving Repr

/-- The Python type name of a value, as used in the type-check error message
of `replace_default_values`. -/
def CValue.pyType : CValue → String
  | .str _ => "str"
  | .int _ => "int"
  | .other ty _ => ty
  | .dict _ => "dict"
  | .list _ => "list"

/-- The errors raised by the configuration utilities.  `keyError` models the
`KeyError` a Python dict lookup would raise; the other constructors model the
`ValueError`s raised explicitly by `replace_default_values`. -/
inductive PyError where
  | keyError (name : String)
  | noDefaultValue (vstr : String)
  | factorNotInt (vstr : String)
  | unknownOperator (vstr : String)
  | cannotParse (vstr : String)
  | badConfigType (typeName : String)
  deriving DecidableEq, Repr

/-- The message of each error, mirroring the f-strings in the source. -/
def PyError.message : PyError → String
  | .keyError name => "KeyError: " ++ name
  | .noDefaultValue v =>
      "Found " ++ v ++ " in the configuration file, but there is no default value for this variable."
  | .factorNotInt v => "F must be an integer in variable: " ++ v
  | .unknownOperator v => "Unknown operator for variable: " ++ v
  | .cannotParse v => "Found " ++ v ++ " in the configuration file, but cannot parse it."
  | .badConfigType t => "Config to update must be dict or list, found " ++ t

/-! ### Python string primitives

`str.strip` and `str.split(" ")` are modelled directly on character lists so
that every definition is structurally recursive and kernel-evaluable. -/

/-- Whitespace characters stripped by Python `str.strip` (ASCII fragment). -/
def isPySpace (c : Char) : Bool :=
  c = ' ' || c = '\t' || c = '\n' || c = '\r' || c = '\x0b' || c = '\x0c'

/-- Python `s.strip()`. -/
def pyStrip (s : String) : String :=
  ⟨((s.data.dropWhile isPySpace).reverse.dropWhile isPySpace).reverse⟩

/-- Helper for `pySplitSpace`: splits at every single space, Python
`split(" ")` style (no collapsing of consecutive separators). -/
def splitSpaceAux : List Char → List Char → List (List Char)
  | [], acc => [acc.reverse]
  | c :: rest, acc =>
    if c = ' ' then acc.reverse :: splitSpaceAux rest []
    else splitSpaceAux rest (c :: acc)

/-- Python `s.split(" ")`. -/
def pySplitSpace (s : String) : List String :=
  (splitSpaceAux s.data []).map fun cs => ⟨cs⟩

/-- Python `s.strip().split(" ")`, the tokenisation used by
`replace_default_values`. -/
def stripSplit (s : String) : List String :=
  pySplitSpace (pyStrip s)

/-- Python `s.isdigit()` (ASCII fragment): non-empty and all digits. -/
def pyIsDigit (s : String) : Bool :=
  !s.data.isEmpty && s.data.all Char.isDigit

/-- Python `int(s)` on a digit string. -/
def pyInt (s : String) : Int :=
  (s.data.foldl (fun n c => 10 * n + (c.toNat - 48)) 0 : Nat)

/-- The first token of `s.strip().split(" ")` (`var_parts[0]` in the source;
`split` never returns an empty list, so the default is never used). -/
def firstToken (s : String) : String :=
  (stripSplit s).headD ""

/-! ### `replace_default_values` -/

/-- The `updated_values` dict of `replace_default_values`: placeholder names
mapped to their supplied value (`none` models Python `None`). -/
abbrev UpdatedValues := List (String × Option Int)

/-- Python dict lookup on `updated_values` (`none` = key absent). -/
def lookupValue : UpdatedValues → String → Option (Option Int)
  | [], _ => none
  | (k, v) :: rest, name => if k = name then some v else lookupValue rest name

/-- The `updated_values` dict built by `replace_default_values` from its three
named parameters and keyword arguments. -/
def mkUpdatedValues (num_bodyparts num_individuals backbone_output_channels : Option Int)
    (kwargs : UpdatedValues) : UpdatedValues :=
  ("num_bodyparts", num_bodyparts)
    :: ("num_individuals", num_individuals)
    :: ("backbone_output_channels", backbone_output_channels)
    :: kwargs

/-- `get_updated_value` from `replace_default_values`: resolves one
placeholder expression (`"name"`, `"name + F"` or `"name x F"`). -/
def get_updated_value (uv : UpdatedValues) (vstr : String) : Except PyError CValue :=
  match lookupValue uv (firstToken vstr) with
  | none => .error (.keyError (firstToken vstr))
  | some none => .error (.noDefaultValue vstr)
  | some (some value) =>
    match stripSplit vstr with
    | [_] => .ok (.int value)
    | [_, op, factor] =>
      if pyIsDigit factor = false then .error (.factorNotInt vstr)
      else if op = "+" then .ok (.int (value + pyInt factor))
      else if op = "x" then .ok (.int (value * pyInt factor))
      else .error (.unknownOperator vstr)
    | _ => .error (.cannotParse vstr)

/-- The guard on string values in the loop of `replace_default_values`:
`config[k].strip().split(" ")[0] in updated_values.keys()`. -/
def isPlaceholderStr (uv : UpdatedValues) (s : String) : Bool :=
  (lookupValue uv (firstToken s)).isSome

mutual

/-- `replace_default_values(config, ...)`: type-checks that the config is a
dict or a list and resolves every placeholder string in it.  The traversal
follows the source loop: children that are dicts or lists are recursed into,
strings whose first token is a placeholder name are resolved with
`get_updated_value`, everything else is kept. -/
def replace_default_values (uv : UpdatedValues) : CValue → Except PyError CValue
  | .dict entries => do pure (.dict (← replaceEntries uv entries))
  | .list items => do pure (.list (← replaceItems uv items))
  | config => .error (.badConfigType config.pyType)

/-- One iteration of the loop body of `replace_default_values`, applied to
the value `config[k]`. -/
def replaceConfigValue (uv : UpdatedValues) : CValue → Except PyError CValue
  | .dict entries => do pure (.dict (← replaceEntries uv entries))
  | .list items => do pure (.list (← replaceItems uv items))
  | .str s => if isPlaceholderStr uv s then get_updated_value uv s else .ok (.str s)
  | v => .ok v

/-- The loop of `replace_default_values` over a dict's items, in key order. -/
def replaceEntries (uv : UpdatedValues) :
    List (String × CValue) → Except PyError (List (String × CValue))
  | [] => .ok []
  | (k, v) :: rest => do pure ((k, ← replaceConfigValue uv v) :: (← replaceEntries uv rest))

/-- The loop of `replace_default_values` over a list's items, in index order. -/
def replaceItems (uv : UpdatedValues) : List CValue → Except PyError (List CValue)
  | [] => .ok []
  | v :: rest => do pure ((← replaceConfigValue uv v) :: (← replaceItems uv rest))

end

/-! ### `update_config` -/

/-- Python dict lookup: `config[k]` guarded by `k in config`
(`none` = key absent). -/
def dictGet : List (String × CValue) → String → Option CValue
  | [], _ => none
  | (k1, v) :: rest, k => if k1 = k then some v else dictGet rest k

/-- Python dict assignment `d[k] = v`: overwrites the value of an existing
key in place, appends a new key at the end (insertion order). -/
def dictSet : List (String × CValue) → String → CValue → List (String × CValue)
  | [], k, v => [(k, v)]
  | (k1, v1) :: rest, k, v =>
    if k1 = k then (k1, v) :: rest else (k1, v1) :: dictSet rest k v

mutual

/-- The loop body of `update_config`: the value stored at key `k`, given the
current value `config[k]` (if any) and the update `v`.  If both are dicts
they are merged recursively, otherwise `v` replaces the old value. -/
def mergeValue : Option CValue → CValue → CValue
  | some (.dict d), .dict u => .dict (update_config d u)
  | _, v => v

/-- `update_config(config, updates)`: folds the updates into the config in
iteration order of `updates.items()`. -/
def update_config : List (String × CValue) → List (String × CValue) → List (String × CValue)
  | config, [] => config
  | config, (k, v) :: rest =>
    update_config (dictSet config k (mergeValue (dictGet config k) v)) rest

end

/-! ### `TopDownPredictor` -/

/-- A batch of bounding boxes, shape `(batch_size, max_num_animals, 4)`,
modelled as an indexed family of exact rationals. -/
abbrev BBoxes (B A : Nat) := Fin B → Fin A → Fin 4 → Rat

/-- A batch of keypoints, shape `(batch_size, max_num_animals, num_joints, 3)`. -/
abbrev Keypoints (B A J : Nat) := Fin B → Fin A → Fin J → Fin 3 → Rat

/-- The predictor: its only state is the bounding-box format string. -/
structure TopDownPredictor where
  format_bbox : String

/-- The default constructor argument `format_bbox="xyxy"`. -/
def TopDownPredictor.default_format_bbox : String := "xyxy"

/-- `_convert_bbox_to_coco`: clones the boxes and turns `(x1, y1, x2, y2)`
into `(x1, y1, x2 - x1, y2 - y1)` by in-place subtraction on channels 2, 3. -/
def TopDownPredictor.convert_bbox_to_coco (_self : TopDownPredictor) {B A : Nat}
    (bboxes : BBoxes B A) : BBoxes B A :=
  fun b a i =>
    match i with
    | 0 => bboxes b a 0
    | 1 => bboxes b a 1
    | 2 => bboxes b a 2 - bboxes b a 0
    | 3 => bboxes b a 3 - bboxes b a 1

/-- The dictionary returned by `TopDownPredictor.forward`: a single
`"poses"` key. -/
structure PoseOutput (B A J : Nat) where
  poses : Keypoints B A J

/-- The bounding boxes `forward` works with: converted to coco format
if and only if `self.format_bbox != "coco"`. -/
def TopDownPredictor.forward_bboxes (self : TopDownPredictor) {B A : Nat}
    (bboxes : BBoxes B A) : BBoxes B A :=
  if self.format_bbox ≠ "coco" then self.convert_bbox_to_coco bboxes else bboxes

/-- `TopDownPredictor.forward`: converts the boxes to coco format unless
`format_bbox == "coco"`, then rescales the cropped keypoint coordinates by
`(w / 256, h / 256)` and translates them by the box origin `(x, y)`; the
remaining channel is taken unchanged from the clone of `keypoints_cropped`. -/
def TopDownPredictor.forward (self : TopDownPredictor) {B A J : Nat}
    (bboxes : BBoxes B A) (keypoints_cropped : Keypoints B A J) : PoseOutput B A J :=
  { poses := fun b a j c =>
      match c with
      | 0 => (self.forward_bboxes bboxes) b a 2 / 256 * keypoints_cropped b a j 0
              + (self.forward_bboxes bboxes) b a 0
      | 1 => (self.forward_bboxes bboxes) b a 3 / 256 * keypoints_cropped b a j 1
              + (self.forward_bboxes bboxes) b a 1
      | 2 => keypoints_cropped b a j c }

/-- A concrete 1 x 1 batch of boxes used to exercise the definitions. -/
def bboxSample : BBoxes 1 1 := fun _ _ i =>
  match i with
  | 0 => 10
  | 1 => 20
  | 2 => 512
  | 3 => 148

/-- A concrete 1 x 1 x 1 batch of cropped keypoints. -/
def kptsSample : Keypoints 1 1 1 := fun _ _ _ c =>
  match c with
  | 0 => 100
  | 1 => 64
  | 2 => (9 : Rat) / 10

/-! ### The command-line entry point of `apis/train.py` -/

/-- One argparse argument declaration: flag and default value (`none` when no
default is declared; integer defaults are rendered as decimal strings). -/
structure ArgSpec where
  flag : String
  defaultValue : Option String
  deriving DecidableEq, Repr

/-- The four `parser.add_argument` calls of the `__main__` block. -/
def main_arg_specs : List ArgSpec :=
  [⟨"--config-path", none⟩, ⟨"--shuffle", some "1"⟩,
   ⟨"--train-ind", some "0"⟩, ⟨"--modelprefix", some ""⟩]

/-- The namespace produced by `parser.parse_args()`. -/
structure ParsedArgs where
  config_path : Option String
  shuffle : Int
  train_ind : Int
  modelprefix_dir : String
  deriving DecidableEq, Repr

/-- argparse parsing: each option that is not supplied on the command line
takes its declared default (`--config-path` has no default, so it is `None`
when absent). -/
def parse_args (config_path : Option String) (shuffle : Option Int)
    (train_ind : Option Int) (modelprefix_dir : Option String) : ParsedArgs :=
  ⟨config_path, shuffle.getD 1, train_ind.getD 0, modelprefix_dir.getD ""⟩

/-- The four arguments `train_network` is invoked with. -/
structure TrainNetworkCall where
  config : Option String
  shuffle : Int
  trainingsetindex : Int
  modelprefix_dir : String
  deriving DecidableEq, Repr

/-- The `__main__` block's call
`train_network(config=args.config_path, shuffle=args.shuffle,
trainingsetindex=args.train_ind, modelprefix=args.modelprefix)`; the
source parameter `modelprefix` is rendered as the field `modelprefix_dir`. -/
def main_call (args : ParsedArgs) : TrainNetworkCall :=
  ⟨args.config_path, args.shuffle, args.train_ind, args.modelprefix_dir⟩

/-- Default of `shuffle` in the signature of `train_network`. -/
def train_network_default_shuffle : Int := 1

/-- Default of `trainingsetindex` in the signature of `train_network`. -/
def train_network_default_trainingsetindex : Int := 0

/-- Default of `modelprefix` in the signature of `train_network`. -/
def train_network_default_modelprefix_dir : String := ""

/-! ### Predicates about placeholder resolution

Specification-level predicates used to state the claims about
`replace_default_values`.  They are defined over the same tokenisation the
source uses (`strip().split(" ")`). -/

/-- A single placeholder string resolves without an error: its first token is
either not a placeholder name at all, or it is one with a supplied (non-None)
value and the expression is a bare name or a well-formed `name op F`
expression with a digit factor and operator `+` or `x`. -/
def strResolvable (uv : UpdatedValues) (s : String) : Bool :=
  match lookupValue uv (firstToken s) with
  | none => true
  | some none => false
  | some (some _) =>
    match stripSplit s with
    | [_] => true
    | [_, op, factor] => pyIsDigit factor && (op = "+" || op = "x")
    | _ => false

/-- A string references a placeholder whose supplied value is None: its first
token is a known placeholder name mapped to `none`. -/
def strRefsMissing (uv : UpdatedValues) (s : String) : Bool :=
  match lookupValue uv (firstToken s) with
  | some none => true
  | _ => false

mutual

/-- Every placeholder string in the configuration (at any nesting depth)
resolves without an error. -/
def configResolvable (uv : UpdatedValues) : CValue → Bool
  | .str s => strResolvable uv s
  | .dict entries => entriesResolvable uv entries
  | .list items => itemsResolvable uv items
  | _ => true

/-- `configResolvable` over a dict's items. -/
def entriesResolvable (uv : UpdatedValues) : List (String × CValue) → Bool
  | [] => true
  | (_, v) :: rest => configResolvable uv v && entriesResolvable uv rest

/-- `configResolvable` over a list's items. -/
def itemsResolvable (uv : UpdatedValues) : List CValue → Bool
  | [] => true
  | v :: rest => configResolvable uv v && itemsResolvable uv rest

end

mutual

/-- Some string value in the configuration (at any nesting depth) references
a placeholder whose supplied value is None. -/
def configRefsMissing (uv : UpdatedValues) : CValue → Bool
  | .str s => strRefsMissing uv s
  | .dict entries => entriesRefsMissing uv entries
  | .list items => itemsRefsMissing uv items
  | _ => false

/-- `configRefsMissing` over a dict's items. -/
def entriesRefsMissing (uv : UpdatedValues) : List (String × CValue) → Bool
  | [] => false
  | (_, v) :: rest => configRefsMissing uv v || entriesRefsMissing uv rest

/-- `configRefsMissing` over a list's items. -/
def itemsRefsMissing (uv : UpdatedValues) : List CValue → Bool
  | [] => false
  | v :: rest => configRefsMissing uv v || itemsRefsMissing uv rest

end

mutual

/-- No string value in the configuration (at any nesting depth) is a
placeholder string (one whose first token is a known placeholder name). -/
def configPlaceholderFree (uv : UpdatedValues) : CValue → Bool
  | .str s => !isPlaceholderStr uv s
  | .dict entries => entriesPlaceholderFree uv entries
  | .list items => itemsPlaceholderFree uv items
  | _ => true

/-- `configPlaceholderFree` over a dict's items. -/
def entriesPlaceholderFree (uv : UpdatedValues) : List (String × CValue) → Bool
  | [] => true
  | (_, v) :: rest => configPlaceholderFree uv v && entriesPlaceholderFree uv rest

/-- `configPlaceholderFree` over a list's items. -/
def itemsPlaceholderFree (uv : UpdatedValues) : List CValue → Bool
  | [] => true
  | v :: rest => configPlaceholderFree uv v && itemsPlaceholderFree uv rest

end

/-- The shape of a configuration: dict keys and list lengths at every
nesting level, with all leaf values erased. -/
inductive CShape where
  | leaf
  | dict (entries : List (String × CShape))
  | list (items : List CShape)
  deriving Repr

mutual

/-- The shape of a configuration value. -/
def shapeOf : CValue → CShape
  | .dict entries => .dict (shapeOfEntries entries)
  | .list items => .list (shapeOfItems items)
  | _ => .leaf

/-- `shapeOf` over a dict's items. -/
def shapeOfEntries : List (String × CValue) → List (String × CShape)
  | [] => []
  | (k, v) :: rest => (k, shapeOf v) :: shapeOfEntries rest

/-- `shapeOf` over a list's items. -/
def shapeOfItems : List CValue → List CShape
  | [] => []
  | v :: rest => shapeOf v :: shapeOfItems rest

end

/-! ### Helper definitions for the claim statements -/

/-- Success indicator for a modelled Python computation. -/
def exceptIsOk {α : Type} : Except PyError α → Bool
  | .ok _ => true
  | .error _ => false

/-- Whether an error is the "Config to update must be dict or list" type
check error. -/
def PyError.isBadConfigType : PyError → Bool
  | .badConfigType _ => true
  | _ => false

/-- Whether a value is a dict or a list (the types accepted by
`replace_default_values`). -/
def CValue.isContainer : CValue → Bool
  | .dict _ => true
  | .list _ => true
  | _ => false

/-- Python `s.startswith(pre)`. -/
def pyStartsWith (s pre : String) : Bool :=
  pre.data.isPrefixOf s.data

/-- Whether `l` has an entry with key `k` (Python `k in config`). -/
def hasKey (l : List (String × CValue)) (k : String) : Bool :=
  (dictGet l k).isSome

/-- The keys of an association list are pairwise distinct, as they are for a
Python dict. -/
def keysDistinct : List (String × CValue) → Bool
  | [] => true
  | (k, _) :: rest => !hasKey rest k && keysDistinct rest

/-! ### Claims about `TopDownPredictor` -/

/-- Auxiliary: with `format_bbox == "coco"` the boxes are used as given. -/
theorem forward_bboxes_coco (p : TopDownPredictor) (hp : p.format_bbox = "coco")
    {B A : Nat} (bboxes : BBoxes B A) : p.forward_bboxes bboxes = bboxes := by
  simp [TopDownPredictor.forward_bboxes, hp]

/-- C1: with boxes in coco format `(x, y, w, h)`, `TopDownPredictor.forward`
returns a dictionary whose `"poses"` tensor holds, for each instance and
joint, `x = (w / 256) * x_c + x` and `y = (h / 256) * y_c + y`, and takes
the remaining component unchanged from the cropped keypoints. -/
theorem C1_topdown_rescale (p : TopDownPredictor) (hp : p.format_bbox = "coco")
    {B A J : Nat} (bboxes : BBoxes B A) (kpts : Keypoints B A J)
    (b : Fin B) (a : Fin A) (j : Fin J) :
    (p.forward bboxes kpts).poses b a j 0
        = bboxes b a 2 / 256 * kpts b a j 0 + bboxes b a 0
    ∧ (p.forward bboxes kpts).poses b a j 1
        = bboxes b a 3 / 256 * kpts b a j 1 + bboxes b a 1
    ∧ (p.forward bboxes kpts).poses b a j 2 = kpts b a j 2 := by
  have hbb : p.forward_bboxes bboxes = bboxes := forward_bboxes_coco p hp bboxes
  refine ⟨?_, ?_, ?_⟩ <;> simp [TopDownPredictor.forward, hbb]

/-- Witness for C1 at a concrete batch: box `(10, 20, 512, 148)`, cropped
keypoint `(100, 64, 9/10)` maps to `x = 512/256*100 + 10 = 210`. -/
theorem C1_topdown_rescale_witness :
    (TopDownPredictor.mk "coco").format_bbox = "coco" ∧
    (TopDownPredictor.forward ⟨"coco"⟩ bboxSample kptsSample).poses 0 0 0 0 = 210 :=
  ⟨rfl,
   ((C1_topdown_rescale ⟨"coco"⟩ rfl bboxSample kptsSample 0 0 0).1).trans
     (by norm_num [bboxSample, kptsSample])⟩

/-- C8: `_convert_bbox_to_coco` maps `(x1, y1, x2, y2)` to
`(x1, y1, x2 - x1, y2 - y1)` elementwise, and `forward` uses the converted
boxes if and only if `format_bbox` is not `"coco"`. -/
theorem C8_convert_bbox_to_coco (p : TopDownPredictor) {B A : Nat}
    (bboxes : BBoxes B A) (b : Fin B) (a : Fin A) :
    (p.convert_bbox_to_coco bboxes b a 0 = bboxes b a 0
     ∧ p.convert_bbox_to_coco bboxes b a 1 = bboxes b a 1
     ∧ p.convert_bbox_to_coco bboxes b a 2 = bboxes b a 2 - bboxes b a 0
     ∧ p.convert_bbox_to_coco bboxes b a 3 = bboxes b a 3 - bboxes b a 1)
    ∧ (p.format_bbox ≠ "coco" → p.forward_bboxes bboxes = p.convert_bbox_to_coco bboxes)
    ∧ (p.format_bbox = "coco" → p.forward_bboxes bboxes = bboxes) := by
  refine ⟨⟨rfl, rfl, rfl, rfl⟩, fun h => ?_, fun h => ?_⟩ <;>
    simp [TopDownPredictor.forward_bboxes, h]

/-- Witness for C8: the default `"xyxy"` predictor converts the sample box
`(10, 20, 512, 148)` to `(10, 20, 502, 128)` and uses the converted boxes. -/
theorem C8_convert_bbox_to_coco_witness :
    TopDownPredictor.convert_bbox_to_coco ⟨"xyxy"⟩ bboxSample 0 0 2
        = bboxSample 0 0 2 - bboxSample 0 0 0
    ∧ TopDownPredictor.forward_bboxes ⟨"xyxy"⟩ bboxSample
        = TopDownPredictor.convert_bbox_to_coco ⟨"xyxy"⟩ bboxSample :=
  ⟨(C8_convert_bbox_to_coco ⟨"xyxy"⟩ bboxSample 0 0).1.2.2.1,
   (C8_convert_bbox_to_coco ⟨"xyxy"⟩ bboxSample 0 0).2.1 (by simp)⟩

/-- C9: `forward` leaves the third keypoint component (the confidence score)
unchanged at every index, for every bounding-box format. -/
theorem C9_forward_keeps_scores (p : TopDownPredictor) {B A J : Nat}
    (bboxes : BBoxes B A) (kpts : Keypoints B A J)
    (b : Fin B) (a : Fin A) (j : Fin J) :
    (p.forward bboxes kpts).poses b a j 2 = kpts b a j 2 := rfl

/-! ### Claim about the command-line entry point -/

/-- C7: the CLI declares exactly the four options `--config-path`,
`--shuffle` (default 1), `--train-ind` (default 0), `--modelprefix`
(default ""), forwards the parsed values to `train_network`, and
`train_network`'s own defaults for shuffle, trainingsetindex and modelprefix
are 1, 0 and "". -/
theorem C7_cli_entry_point :
    main_arg_specs
      = [⟨"--config-path", none⟩, ⟨"--shuffle", some "1"⟩,
         ⟨"--train-ind", some "0"⟩, ⟨"--modelprefix", some ""⟩]
    ∧ main_arg_specs.length = 4
    ∧ (∀ cp sh ti mp, main_call (parse_args cp sh ti mp)
        = ⟨cp, sh.getD 1, ti.getD 0, mp.getD ""⟩)
    ∧ parse_args none none none none = ⟨none, 1, 0, ""⟩
    ∧ train_network_default_shuffle = 1
    ∧ train_network_default_trainingsetindex = 0
    ∧ train_network_default_modelprefix_dir = "" :=
  ⟨rfl, rfl, fun _ _ _ _ => rfl, rfl, rfl, rfl, rfl⟩

/-! ### Resolution lemmas for `replace_default_values` -/

theorem exceptIsOk_false_iff {α : Type} (x : Except PyError α) :
    exceptIsOk x = false ↔ ∃ e, x = .error e := by
  cases x <;> simp [exceptIsOk]

theorem exceptIsOk_true_iff {α : Type} (x : Except PyError α) :
    exceptIsOk x = true ↔ ∃ r, x = .ok r := by
  cases x <;> simp [exceptIsOk]

/-- On a string value the loop body succeeds exactly when the string is
resolvable. -/
theorem replaceStr_isOk (uv : UpdatedValues) (s : String) :
    exceptIsOk (replaceConfigValue uv (.str s)) = strResolvable uv s := by
  simp only [replaceConfigValue, strResolvable, isPlaceholderStr, get_updated_value, firstToken]
  cases hl : lookupValue uv ((stripSplit s).headD "") with
  | none => simp [exceptIsOk]
  | some vo =>
    cases vo with
    | none => simp [exceptIsOk]
    | some v =>
      simp only [Option.isSome, if_true]
      cases hp : stripSplit s with
      | nil => simp [exceptIsOk]
      | cons t0 rest =>
        cases rest with
        | nil => simp [exceptIsOk]
        | cons t1 rest1 =>
          cases rest1 with
          | nil => simp [exceptIsOk]
          | cons t2 rest2 =>
            cases rest2 with
            | nil =>
              cases hd : pyIsDigit t2 with
              | false => simp [hd, exceptIsOk]
              | true =>
                by_cases h1 : t1 = "+"
                · simp [hd, h1, exceptIsOk]
                · by_cases h2 : t1 = "x" <;> simp [hd, h1, h2, exceptIsOk]
            | cons t3 rest3 => simp [exceptIsOk]

mutual

/-- The loop body succeeds exactly on resolvable values. -/
theorem configValue_isOk (uv : UpdatedValues) :
    (v : CValue) → exceptIsOk (replaceConfigValue uv v) = configResolvable uv v
  | .str s => replaceStr_isOk uv s
  | .int _ => rfl
  | .other _ _ => rfl
  | .dict es => by
    have h := entries_isOk uv es
    simp only [replaceConfigValue, configResolvable, ← h]
    cases he : replaceEntries uv es <;>
      simp [exceptIsOk, Bind.bind, Except.bind, Pure.pure, Except.pure]
  | .list xs => by
    have h := items_isOk uv xs
    simp only [replaceConfigValue, configResolvable, ← h]
    cases he : replaceItems uv xs <;>
      simp [exceptIsOk, Bind.bind, Except.bind, Pure.pure, Except.pure]

/-- The dict loop succeeds exactly when every item is resolvable. -/
theorem entries_isOk (uv : UpdatedValues) :
    (es : List (String × CValue)) → exceptIsOk (replaceEntries uv es) = entriesResolvable uv es
  | [] => rfl
  | (k, v) :: rest => by
    have h1 := configValue_isOk uv v
    have h2 := entries_isOk uv rest
    simp only [replaceEntries, entriesResolvable, ← h1, ← h2]
    cases hx : replaceConfigValue uv v <;> cases hy : replaceEntries uv rest <;>
      simp [exceptIsOk, Bind.bind, Except.bind, Pure.pure, Except.pure]

/-- The list loop succeeds exactly when every item is resolvable. -/
theorem items_isOk (uv : UpdatedValues) :
    (xs : List CValue) → exceptIsOk (replaceItems uv xs) = itemsResolvable uv xs
  | [] => rfl
  | v :: rest => by
    have h1 := configValue_isOk uv v
    have h2 := items_isOk uv rest
    simp only [replaceItems, itemsResolvable, ← h1, ← h2]
    cases hx : replaceConfigValue uv v <;> cases hy : replaceItems uv rest <;>
      simp [exceptIsOk, Bind.bind, Except.bind, Pure.pure, Except.pure]

end

/-- Every error of `get_updated_value` is a placeholder-resolution error,
never the config type check error. -/
theorem get_updated_value_error_class (uv : UpdatedValues) (s : String) (e : PyError)
    (h : get_updated_value uv s = .error e) : e.isBadConfigType = false := by
  unfold get_updated_value at h
  repeat' split at h
  all_goals first | (cases h; rfl) | exact Except.noConfusion h

/-- Every successful resolution of a placeholder substitutes an integer. -/
theorem get_updated_value_ok_shape (uv : UpdatedValues) (s : String) (r : CValue)
    (h : get_updated_value uv s = .ok r) : ∃ n : Int, r = .int n := by
  unfold get_updated_value at h
  repeat' split at h
  all_goals first | (cases h; exact ⟨_, rfl⟩) | exact Except.noConfusion h

mutual

/-- Errors of the loop body are never the config type check error. -/
theorem configValue_error_class (uv : UpdatedValues) :
    (v : CValue) → (e : PyError) → replaceConfigValue uv v = .error e →
      e.isBadConfigType = false
  | .str s, e, h => by
    simp only [replaceConfigValue] at h
    by_cases hg : isPlaceholderStr uv s = true
    · rw [if_pos hg] at h
      exact get_updated_value_error_class uv s e h
    · rw [if_neg hg] at h
      exact Except.noConfusion h
  | .int _, e, h => Except.noConfusion h
  | .other _ _, e, h => Except.noConfusion h
  | .dict es, e, h => by
    simp only [replaceConfigValue] at h
    cases he : replaceEntries uv es with
    | ok l =>
      rw [he] at h
      simp [Bind.bind, Except.bind, Pure.pure, Except.pure] at h
    | error ex =>
      rw [he] at h
      simp only [Bind.bind, Except.bind] at h
      cases h
      exact entries_error_class uv es e he
  | .list xs, e, h => by
    simp only [replaceConfigValue] at h
    cases he : replaceItems uv xs with
    | ok l =>
      rw [he] at h
      simp [Bind.bind, Except.bind, Pure.pure, Except.pure] at h
    | error ex =>
      rw [he] at h
      simp only [Bind.bind, Except.bind] at h
      cases h
      exact items_error_class uv xs e he

/-- Errors of the dict loop are never the config type check error. -/
theorem entries_error_class (uv : UpdatedValues) :
    (es : List (String × CValue)) → (e : PyError) → replaceEntries uv es = .error e →
      e.isBadConfigType = false
  | [], e, h => Except.noConfusion h
  | (k, v) :: rest, e, h => by
    simp only [replaceEntries] at h
    cases hx : replaceConfigValue uv v with
    | error ex =>
      rw [hx] at h
      simp only [Bind.bind, Except.bind] at h
      cases h
      exact configValue_error_class uv v e hx
    | ok a =>
      rw [hx] at h
      simp only [Bind.bind, Except.bind] at h
      cases hy : replaceEntries uv rest with
      | error ey =>
        rw [hy] at h
        simp only [Except.bind] at h
        cases h
        exact entries_error_class uv rest e hy
      | ok l =>
        rw [hy] at h
        simp [Except.bind, Pure.pure, Except.pure] at h

/-- Errors of the list loop are never the config type check error. -/
theorem items_error_class (uv : UpdatedValues) :
    (xs : List CValue) → (e : PyError) → replaceItems uv xs = .error e →
      e.isBadConfigType = false
  | [], e, h => Except.noConfusion h
  | v :: rest, e, h => by
    simp only [replaceItems] at h
    cases hx : replaceConfigValue uv v with
    | error ex =>
      rw [hx] at h
      simp only [Bind.bind, Except.bind] at h
      cases h
      exact configValue_error_class uv v e hx
    | ok a =>
      rw [hx] at h
      simp only [Bind.bind, Except.bind] at h
      cases hy : replaceItems uv rest with
      | error ey =>
        rw [hy] at h
        simp only [Except.bind] at h
        cases h
        exact items_error_class uv rest e hy
      | ok l =>
        rw [hy] at h
        simp [Except.bind, Pure.pure, Except.pure] at h

end

/-- A string that references a placeholder with a None value is not
resolvable. -/
theorem strRefsMissing_not_resolvable (uv : UpdatedValues) (s : String)
    (h : strRefsMissing uv s = true) : strResolvable uv s = false := by
  unfold strRefsMissing at h
  unfold strResolvable
  cases hl : lookupValue uv (firstToken s) with
  | none => rw [hl] at h; exact Bool.noConfusion h
  | some vo =>
    cases vo with
    | none => rfl
    | some v => rw [hl] at h; exact Bool.noConfusion h

mutual

/-- A configuration containing a reference to a None placeholder is not
resolvable. -/
theorem configRefsMissing_not_resolvable (uv : UpdatedValues) :
    (v : CValue) → configRefsMissing uv v = true → configResolvable uv v = false
  | .str s, h => strRefsMissing_not_resolvable uv s h
  | .dict es, h => entriesRefsMissing_not_resolvable uv es h
  | .list xs, h => itemsRefsMissing_not_resolvable uv xs h

/-- `configRefsMissing_not_resolvable` for dict items. -/
theorem entriesRefsMissing_not_resolvable (uv : UpdatedValues) :
    (es : List (String × CValue)) → entriesRefsMissing uv es = true →
      entriesResolvable uv es = false
  | (k, v) :: rest, h => by
    simp only [entriesRefsMissing, Bool.or_eq_true] at h
    simp only [entriesResolvable, Bool.and_eq_false_iff]
    cases h with
    | inl h1 => exact Or.inl (configRefsMissing_not_resolvable uv v h1)
    | inr h2 => exact Or.inr (entriesRefsMissing_not_resolvable uv rest h2)

/-- `configRefsMissing_not_resolvable` for list items. -/
theorem itemsRefsMissing_not_resolvable (uv : UpdatedValues) :
    (xs : List CValue) → itemsRefsMissing uv xs = true → itemsResolvable uv xs = false
  | v :: rest, h => by
    simp only [itemsRefsMissing, Bool.or_eq_true] at h
    simp only [itemsResolvable, Bool.and_eq_false_iff]
    cases h with
    | inl h1 => exact Or.inl (configRefsMissing_not_resolvable uv v h1)
    | inr h2 => exact Or.inr (itemsRefsMissing_not_resolvable uv rest h2)

end

/-- On dicts and lists, `replace_default_values` agrees with the loop body. -/
theorem replace_eq_loop_body (uv : UpdatedValues) (config : CValue)
    (hc : config.isContainer = true) :
    replace_default_values uv config = replaceConfigValue uv config := by
  cases config <;> first | rfl | exact Bool.noConfusion hc

/-! ### Claims about `replace_default_values` -/

/-- C2 (amended): on a dict-or-list config, whenever some string value at any
nesting depth has as its first token a known placeholder with None value, a
placeholder-resolution ValueError (not the type error) is raised; when every
referenced placeholder has a non-None value and every placeholder expression
is well-formed, no error is raised. -/
theorem C2_none_placeholder_raises (uv : UpdatedValues) (config : CValue)
    (hc : config.isContainer = true) :
    (configRefsMissing uv config = true →
      ∃ e, replace_default_values uv config = .error e ∧ e.isBadConfigType = false)
    ∧ (configResolvable uv config = true →
      ∃ r, replace_default_values uv config = .ok r) := by
  constructor
  · intro hm
    have hres : configResolvable uv config = false :=
      configRefsMissing_not_resolvable uv config hm
    have hok : exceptIsOk (replace_default_values uv config) = false := by
      rw [replace_eq_loop_body uv config hc, configValue_isOk uv config, hres]
    obtain ⟨e, he⟩ := (exceptIsOk_false_iff _).1 hok
    refine ⟨e, he, ?_⟩
    rw [replace_eq_loop_body uv config hc] at he
    exact configValue_error_class uv config e he
  · intro hr
    have hok : exceptIsOk (replace_default_values uv config) = true := by
      rw [replace_eq_loop_body uv config hc, configValue_isOk uv config, hr]
    exact (exceptIsOk_true_iff _).1 hok

/-- Witness for C2: with `num_bodyparts=None`, a config containing the string
`"num_bodyparts"` raises a non-type ValueError, and with `num_bodyparts=5` a
config with `"num_bodyparts x 2"` raises nothing. -/
theorem C2_none_placeholder_raises_witness :
    (∃ e, replace_default_values (mkUpdatedValues none none none [])
        (.dict [("a", .str "num_bodyparts")]) = .error e ∧ e.isBadConfigType = false)
    ∧ (∃ r, replace_default_values (mkUpdatedValues (some 5) none none [])
        (.dict [("a", .str "num_bodyparts x 2")]) = .ok r) :=
  ⟨(C2_none_placeholder_raises (mkUpdatedValues none none none [])
      (.dict [("a", .str "num_bodyparts")]) rfl).1 rfl,
   (C2_none_placeholder_raises (mkUpdatedValues (some 5) none none [])
      (.dict [("a", .str "num_bodyparts x 2")]) rfl).2 rfl⟩

/-- Counterexample to C2 as stated: the string `"num_bodypartsX"` starts with
the placeholder name `"num_bodyparts"`, whose supplied value is None, yet
`replace_default_values` raises no error (the guard compares the whole first
whitespace token, not a prefix). -/
theorem C2_startswith_counterexample :
    pyStartsWith "num_bodypartsX" "num_bodyparts" = true
    ∧ lookupValue (mkUpdatedValues none none none []) "num_bodyparts" = some none
    ∧ replace_default_values (mkUpdatedValues none none none [])
        (.dict [("a", .str "num_bodypartsX")])
      = .ok (.dict [("a", .str "num_bodypartsX")]) :=
  ⟨rfl, rfl, rfl⟩

/-- C6: `replace_default_values` raises the ValueError naming the offending
type exactly on configs that are neither dicts nor lists; on dicts and lists
any raised error is a placeholder-resolution error, never the type error. -/
theorem C6_config_type_check (uv : UpdatedValues) (config : CValue) :
    (config.isContainer = false →
      replace_default_values uv config = .error (.badConfigType config.pyType))
    ∧ (config.isContainer = true →
      ∀ e, replace_default_values uv config = .error e → e.isBadConfigType = false) := by
  constructor
  · intro hc
    cases config <;> first | rfl | exact Bool.noConfusion hc
  · intro hc e he
    rw [replace_eq_loop_body uv config hc] at he
    exact configValue_error_class uv config e he

/-- Witness for C6: an `int` config raises the type error naming `int`; on a
dict config the raised error (here: no default value) is not the type error. -/
theorem C6_config_type_check_witness :
    replace_default_values (mkUpdatedValues none none none []) (.int 3)
      = .error (.badConfigType "int")
    ∧ PyError.isBadConfigType (.noDefaultValue "num_bodyparts") = false :=
  ⟨(C6_config_type_check (mkUpdatedValues none none none []) (.int 3)).1 rfl,
   (C6_config_type_check (mkUpdatedValues none none none [])
      (.dict [("a", .str "num_bodyparts")])).2 rfl (.noDefaultValue "num_bodyparts") rfl⟩

/-- C3: for a placeholder string whose first token has supplied value `v`, a
bare name substitutes `v`; `"name + F"` with digit `F` substitutes
`v + int(F)`; `"name x F"` substitutes `v * int(F)`; a non-digit factor, an
unknown operator, or a token count other than 1 or 3 raises a ValueError; and
a successful resolution is what `replace_default_values` stores in place of
the string. -/
theorem C3_placeholder_arithmetic (uv : UpdatedValues) (s : String) (v : Int)
    (hv : lookupValue uv (firstToken s) = some (some v)) :
    ((stripSplit s).length = 1 → get_updated_value uv s = .ok (.int v))
    ∧ (∀ name op factor, stripSplit s = [name, op, factor] →
        (pyIsDigit factor = true → op = "+" →
           get_updated_value uv s = .ok (.int (v + pyInt factor)))
        ∧ (pyIsDigit factor = true → op = "x" →
           get_updated_value uv s = .ok (.int (v * pyInt factor)))
        ∧ (pyIsDigit factor = false →
           get_updated_value uv s = .error (.factorNotInt s))
        ∧ (pyIsDigit factor = true → op ≠ "+" → op ≠ "x" →
           get_updated_value uv s = .error (.unknownOperator s)))
    ∧ ((stripSplit s).length ≠ 1 → (stripSplit s).length ≠ 3 →
        get_updated_value uv s = .error (.cannotParse s))
    ∧ (∀ k r, get_updated_value uv s = .ok r →
        replace_default_values uv (.dict [(k, .str s)]) = .ok (.dict [(k, r)])) := by
  refine ⟨?_, ?_, ?_, ?_⟩
  · intro h1
    obtain ⟨t, ht⟩ := List.length_eq_one.mp h1
    unfold get_updated_value
    rw [hv, ht]
  · intro name op factor hpe
    refine ⟨?_, ?_, ?_, ?_⟩
    · intro hd hop
      unfold get_updated_value
      rw [hv, hpe, hop]
      simp [hd]
    · intro hd hop
      unfold get_updated_value
      rw [hv, hpe, hop]
      simp [hd]
    · intro hd
      unfold get_updated_value
      rw [hv, hpe]
      simp [hd]
    · intro hd hop1 hop2
      unfold get_updated_value
      rw [hv, hpe]
      simp [hd, hop1, hop2]
  · intro h1 h3
    unfold get_updated_value
    rw [hv]
    cases hp : stripSplit s with
    | nil => rfl
    | cons t0 rest =>
      cases rest with
      | nil => rw [hp] at h1; simp at h1
      | cons t1 rest1 =>
        cases rest1 with
        | nil => rfl
        | cons t2 rest2 =>
          cases rest2 with
          | nil => rw [hp] at h3; simp at h3
          | cons t3 rest3 => rfl
  · intro k r hr
    have hg : isPlaceholderStr uv s = true := by
      unfold isPlaceholderStr
      rw [hv]
      rfl
    simp only [replace_default_values, replaceEntries, replaceConfigValue, hg, if_pos, hr,
      Bind.bind, Except.bind, Pure.pure, Except.pure]

/-- Witness for C3 on concrete strings: with `num_bodyparts = 5`,
`"num_bodyparts"` gives 5, `"num_bodyparts + 1"` gives 6, `"num_bodyparts x 2"`
gives 10, `"num_bodyparts x two"` and `"num_bodyparts ? 2"` and
`"num_bodyparts x"` raise, and the dict `{"a": "num_bodyparts x 2"}` becomes
`{"a": 10}`. -/
theorem C3_placeholder_arithmetic_witness :
    get_updated_value (mkUpdatedValues (some 5) none none []) "num_bodyparts" = .ok (.int 5)
    ∧ get_updated_value (mkUpdatedValues (some 5) none none []) "num_bodyparts + 1"
        = .ok (.int 6)
    ∧ get_updated_value (mkUpdatedValues (some 5) none none []) "num_bodyparts x 2"
        = .ok (.int 10)
    ∧ get_updated_value (mkUpdatedValues (some 5) none none []) "num_bodyparts x two"
        = .error (.factorNotInt "num_bodyparts x two")
    ∧ get_updated_value (mkUpdatedValues (some 5) none none []) "num_bodyparts ? 2"
        = .error (.unknownOperator "num_bodyparts ? 2")
    ∧ get_updated_value (mkUpdatedValues (some 5) none none []) "num_bodyparts x"
        = .error (.cannotParse "num_bodyparts x")
    ∧ replace_default_values (mkUpdatedValues (some 5) none none [])
        (.dict [("a", .str "num_bodyparts x 2")]) = .ok (.dict [("a", .int 10)]) := by
  refine ⟨?_, ?_, ?_, ?_, ?_, ?_, ?_⟩
  · exact (C3_placeholder_arithmetic (mkUpdatedValues (some 5) none none [])
      "num_bodyparts" 5 rfl).1 rfl
  · exact (((C3_placeholder_arithmetic (mkUpdatedValues (some 5) none none [])
      "num_bodyparts + 1" 5 rfl).2.1 "num_bodyparts" "+" "1" rfl).1 rfl rfl).trans rfl
  · exact (((C3_placeholder_arithmetic (mkUpdatedValues (some 5) none none [])
      "num_bodyparts x 2" 5 rfl).2.1 "num_bodyparts" "x" "2" rfl).2.1 rfl rfl).trans rfl
  · exact ((C3_placeholder_arithmetic (mkUpdatedValues (some 5) none none [])
      "num_bodyparts x two" 5 rfl).2.1 "num_bodyparts" "x" "two" rfl).2.2.1 rfl
  · exact ((C3_placeholder_arithmetic (mkUpdatedValues (some 5) none none [])
      "num_bodyparts ? 2" 5 rfl).2.1 "num_bodyparts" "?" "2" rfl).2.2.2 rfl
      (by intro h; exact absurd h (by decide)) (by intro h; exact absurd h (by decide))
  · exact (C3_placeholder_arithmetic (mkUpdatedValues (some 5) none none [])
      "num_bodyparts x" 5 rfl).2.2.1 (by decide) (by decide)
  · exact (C3_placeholder_arithmetic (mkUpdatedValues (some 5) none none [])
      "num_bodyparts x 2" 5 rfl).2.2.2 "a" (.int 10)
      ((((C3_placeholder_arithmetic (mkUpdatedValues (some 5) none none [])
        "num_bodyparts x 2" 5 rfl).2.1 "num_bodyparts" "x" "2" rfl).2.1 rfl rfl).trans rfl)

mutual

/-- Values produced by the loop body contain no placeholder strings. -/
theorem configValue_ok_free (uv : UpdatedValues) :
    (v w : CValue) → replaceConfigValue uv v = .ok w → configPlaceholderFree uv w = true
  | .str s, w, h => by
    simp only [replaceConfigValue] at h
    cases hb : isPlaceholderStr uv s with
    | true =>
      simp only [hb, if_true] at h
      obtain ⟨n, hn⟩ := get_updated_value_ok_shape uv s w h
      rw [hn]; rfl
    | false =>
      simp only [hb, Bool.false_eq_true, if_false] at h
      cases h
      simp [configPlaceholderFree, hb]
  | .int _, w, h => by cases h; rfl
  | .other _ _, w, h => by cases h; rfl
  | .dict es, w, h => by
    simp only [replaceConfigValue] at h
    cases he : replaceEntries uv es with
    | error ex => rw [he] at h; simp [Bind.bind, Except.bind] at h
    | ok l =>
      rw [he] at h
      simp only [Bind.bind, Except.bind, Pure.pure, Except.pure] at h
      cases h
      exact entries_ok_free uv es l he
  | .list xs, w, h => by
    simp only [replaceConfigValue] at h
    cases he : replaceItems uv xs with
    | error ex => rw [he] at h; simp [Bind.bind, Except.bind] at h
    | ok l =>
      rw [he] at h
      simp only [Bind.bind, Except.bind, Pure.pure, Except.pure] at h
      cases h
      exact items_ok_free uv xs l he

/-- Dict items produced by the loop contain no placeholder strings. -/
theorem entries_ok_free (uv : UpdatedValues) :
    (es ls : List (String × CValue)) → replaceEntries uv es = .ok ls →
      entriesPlaceholderFree uv ls = true
  | [], ls, h => by cases h; rfl
  | (k, v) :: rest, ls, h => by
    simp only [replaceEntries] at h
    cases hx : replaceConfigValue uv v with
    | error ex => rw [hx] at h; simp [Bind.bind, Except.bind] at h
    | ok a =>
      rw [hx] at h
      simp only [Bind.bind, Except.bind] at h
      cases hy : replaceEntries uv rest with
      | error ey => rw [hy] at h; simp [Except.bind] at h
      | ok l =>
        rw [hy] at h
        simp only [Except.bind, Pure.pure, Except.pure] at h
        cases h
        simp only [entriesPlaceholderFree, Bool.and_eq_true]
        exact ⟨configValue_ok_free uv v a hx, entries_ok_free uv rest l hy⟩

/-- List items produced by the loop contain no placeholder strings. -/
theorem items_ok_free (uv : UpdatedValues) :
    (xs ls : List CValue) → replaceItems uv xs = .ok ls → itemsPlaceholderFree uv ls = true
  | [], ls, h => by cases h; rfl
  | v :: rest, ls, h => by
    simp only [replaceItems] at h
    cases hx : replaceConfigValue uv v with
    | error ex => rw [hx] at h; simp [Bind.bind, Except.bind] at h
    | ok a =>
      rw [hx] at h
      simp only [Bind.bind, Except.bind] at h
      cases hy : replaceItems uv rest with
      | error ey => rw [hy] at h; simp [Except.bind] at h
      | ok l =>
        rw [hy] at h
        simp only [Except.bind, Pure.pure, Except.pure] at h
        cases h
        simp only [itemsPlaceholderFree, Bool.and_eq_true]
        exact ⟨configValue_ok_free uv v a hx, items_ok_free uv rest l hy⟩

end

mutual

/-- The loop body preserves the shape of the configuration. -/
theorem configValue_ok_shape (uv : UpdatedValues) :
    (v w : CValue) → replaceConfigValue uv v = .ok w → shapeOf w = shapeOf v
  | .str s, w, h => by
    simp only [replaceConfigValue] at h
    cases hb : isPlaceholderStr uv s with
    | true =>
      simp only [hb, if_true] at h
      obtain ⟨n, hn⟩ := get_updated_value_ok_shape uv s w h
      rw [hn]; rfl
    | false =>
      simp only [hb, Bool.false_eq_true, if_false] at h
      cases h; rfl
  | .int _, w, h => by cases h; rfl
  | .other _ _, w, h => by cases h; rfl
  | .dict es, w, h => by
    simp only [replaceConfigValue] at h
    cases he : replaceEntries uv es with
    | error ex => rw [he] at h; simp [Bind.bind, Except.bind] at h
    | ok l =>
      rw [he] at h
      simp only [Bind.bind, Except.bind, Pure.pure, Except.pure] at h
      cases h
      simp only [shapeOf]
      rw [entries_ok_shape uv es l he]
  | .list xs, w, h => by
    simp only [replaceConfigValue] at h
    cases he : replaceItems uv xs with
    | error ex => rw [he] at h; simp [Bind.bind, Except.bind] at h
    | ok l =>
      rw [he] at h
      simp only [Bind.bind, Except.bind, Pure.pure, Except.pure] at h
      cases h
      simp only [shapeOf]
      rw [items_ok_shape uv xs l he]

/-- The dict loop preserves keys and item shapes. -/
theorem entries_ok_shape (uv : UpdatedValues) :
    (es ls : List (String × CValue)) → replaceEntries uv es = .ok ls →
      shapeOfEntries ls = shapeOfEntries es
  | [], ls, h => by cases h; rfl
  | (k, v) :: rest, ls, h => by
    simp only [replaceEntries] at h
    cases hx : replaceConfigValue uv v with
    | error ex => rw [hx] at h; simp [Bind.bind, Except.bind] at h
    | ok a =>
      rw [hx] at h
      simp only [Bind.bind, Except.bind] at h
      cases hy : replaceEntries uv rest with
      | error ey => rw [hy] at h; simp [Except.bind] at h
      | ok l =>
        rw [hy] at h
        simp only [Except.bind, Pure.pure, Except.pure] at h
        cases h
        simp only [shapeOfEntries]
        rw [configValue_ok_shape uv v a hx, entries_ok_shape uv rest l hy]

/-- The list loop preserves lengths and item shapes. -/
theorem items_ok_shape (uv : UpdatedValues) :
    (xs ls : List CValue) → replaceItems uv xs = .ok ls → shapeOfItems ls = shapeOfItems xs
  | [], ls, h => by cases h; rfl
  | v :: rest, ls, h => by
    simp only [replaceItems] at h
    cases hx : replaceConfigValue uv v with
    | error ex => rw [hx] at h; simp [Bind.bind, Except.bind] at h
    | ok a =>
      rw [hx] at h
      simp only [Bind.bind, Except.bind] at h
      cases hy : replaceItems uv rest with
      | error ey => rw [hy] at h; simp [Except.bind] at h
      | ok l =>
        rw [hy] at h
        simp only [Except.bind, Pure.pure, Except.pure] at h
        cases h
        simp only [shapeOfItems]
        rw [configValue_ok_shape uv v a hx, items_ok_shape uv rest l hy]

end

mutual

/-- The loop body leaves a placeholder-free value unchanged. -/
theorem configValue_free_fixed (uv : UpdatedValues) :
    (w : CValue) → configPlaceholderFree uv w = true → replaceConfigValue uv w = .ok w
  | .str s, h => by
    simp only [configPlaceholderFree, Bool.not_eq_eq_eq_not, Bool.not_true] at h
    simp [replaceConfigValue, h]
  | .int _, _ => rfl
  | .other _ _, _ => rfl
  | .dict es, h => by
    simp only [configPlaceholderFree] at h
    simp only [replaceConfigValue, entries_free_fixed uv es h, Bind.bind, Except.bind,
      Pure.pure, Except.pure]
  | .list xs, h => by
    simp only [configPlaceholderFree] at h
    simp only [replaceConfigValue, items_free_fixed uv xs h, Bind.bind, Except.bind,
      Pure.pure, Except.pure]

/-- The dict loop leaves placeholder-free items unchanged. -/
theorem entries_free_fixed (uv : UpdatedValues) :
    (es : List (String × CValue)) → entriesPlaceholderFree uv es = true →
      replaceEntries uv es = .ok es
  | [], _ => rfl
  | (k, v) :: rest, h => by
    simp only [entriesPlaceholderFree, Bool.and_eq_true] at h
    simp only [replaceEntries, configValue_free_fixed uv v h.1,
      entries_free_fixed uv rest h.2, Bind.bind, Except.bind, Pure.pure, Except.pure]

/-- The list loop leaves placeholder-free items unchanged. -/
theorem items_free_fixed (uv : UpdatedValues) :
    (xs : List CValue) → itemsPlaceholderFree uv xs = true → replaceItems uv xs = .ok xs
  | [], _ => rfl
  | v :: rest, h => by
    simp only [itemsPlaceholderFree, Bool.and_eq_true] at h
    simp only [replaceItems, configValue_free_fixed uv v h.1,
      items_free_fixed uv rest h.2, Bind.bind, Except.bind, Pure.pure, Except.pure]

end

/-- C10: when every supplied placeholder value is an integer and
`replace_default_values` returns a result, the result contains no remaining
placeholder strings, has the same dict keys and list lengths as the input at
every nesting level, and a second application returns the result unchanged. -/
theorem C10_resolution_idempotent (uv : UpdatedValues) (config r : CValue)
    (_hall : ∀ p ∈ uv, Option.isSome p.2 = true)
    (hok : replace_default_values uv config = .ok r) :
    configPlaceholderFree uv r = true
    ∧ shapeOf r = shapeOf config
    ∧ replace_default_values uv r = .ok r := by
  have hc : config.isContainer = true := by
    cases config <;> first | rfl | exact Except.noConfusion hok
  rw [replace_eq_loop_body uv config hc] at hok
  have hfree := configValue_ok_free uv config r hok
  have hshape := configValue_ok_shape uv config r hok
  have hrc : r.isContainer = true := by
    cases config <;> try exact Bool.noConfusion hc
    all_goals cases r <;> first | rfl | exact CShape.noConfusion hshape
  rw [replace_eq_loop_body uv r hrc]
  exact ⟨hfree, hshape, configValue_free_fixed uv r hfree⟩

/-- Witness for C10 on a nested config with all placeholder values integers:
the result is placeholder-free, shape-equal, and a fixed point. -/
theorem C10_resolution_idempotent_witness :
    configPlaceholderFree (mkUpdatedValues (some 5) (some 2) (some 64) [("paf", some 7)])
      (.dict [("a", .int 10), ("b", .list [.int 3, .str "free"]), ("c", .dict [("d", .int 7)])])
      = true
    ∧ shapeOf
        (.dict [("a", .int 10), ("b", .list [.int 3, .str "free"]), ("c", .dict [("d", .int 7)])])
      = shapeOf
        (.dict [("a", .str "num_bodyparts x 2"),
                ("b", .list [.str "num_individuals + 1", .str "free"]),
                ("c", .dict [("d", .str "paf")])])
    ∧ replace_default_values (mkUpdatedValues (some 5) (some 2) (some 64) [("paf", some 7)])
        (.dict [("a", .int 10), ("b", .list [.int 3, .str "free"]), ("c", .dict [("d", .int 7)])])
      = .ok (.dict [("a", .int 10), ("b", .list [.int 3, .str "free"]),
                    ("c", .dict [("d", .int 7)])]) :=
  C10_resolution_idempotent
    (mkUpdatedValues (some 5) (some 2) (some 64) [("paf", some 7)])
    (.dict [("a", .str "num_bodyparts x 2"),
            ("b", .list [.str "num_individuals + 1", .str "free"]),
            ("c", .dict [("d", .str "paf")])])
    (.dict [("a", .int 10), ("b", .list [.int 3, .str "free"]), ("c", .dict [("d", .int 7)])])
    (by decide) rfl

/-! ### Lemmas about `update_config` -/

/-- Reading back the key just set. -/
theorem dictGet_dictSet_same (l : List (String × CValue)) (k : String) (v : CValue) :
    dictGet (dictSet l k v) k = some v := by
  induction l with
  | nil => simp [dictSet, dictGet]
  | cons p rest ih =>
    obtain ⟨k1, v1⟩ := p
    by_cases hk : k1 = k
    · simp [dictSet, dictGet, hk]
    · simp [dictSet, dictGet, hk, ih]

/-- Setting one key does not change any other key. -/
theorem dictGet_dictSet_ne (l : List (String × CValue)) (k k' : String) (v : CValue)
    (h : k ≠ k') : dictGet (dictSet l k v) k' = dictGet l k' := by
  induction l with
  | nil => simp [dictSet, dictGet, h]
  | cons p rest ih =>
    obtain ⟨k1, v1⟩ := p
    by_cases hk : k1 = k
    · subst hk; simp [dictSet, dictGet, h]
    · simp [dictSet, dictGet, hk, ih]

/-- Keys that do not occur in the updates keep their original value. -/
theorem update_config_untouched :
    (config updates : List (String × CValue)) → (k : String) → dictGet updates k = none →
      dictGet (update_config config updates) k = dictGet config k
  | _, [], _, _ => rfl
  | config, (k0, v0) :: rest, k, h => by
    have hk0 : k0 ≠ k := by
      intro he
      rw [show dictGet ((k0, v0) :: rest) k = some v0 by simp [dictGet, he]] at h
      exact Option.noConfusion h
    have hrest : dictGet rest k = none := by
      rw [show dictGet ((k0, v0) :: rest) k = dictGet rest k by simp [dictGet, hk0]] at h
      exact h
    simp only [update_config]
    rw [update_config_untouched _ rest k hrest]
    exact dictGet_dictSet_ne config k0 k _ hk0

/-- The merge of two dict values. -/
theorem mergeValue_dicts (d u : List (String × CValue)) :
    mergeValue (some (.dict d)) (.dict u) = .dict (update_config d u) := rfl

/-- When the old and new values are not both dicts, the update replaces. -/
theorem mergeValue_not_dicts (x : Option CValue) (v : CValue)
    (h : ∀ d u, x = some (.dict d) → v = .dict u → False) : mergeValue x v = v := by
  cases x with
  | none => cases v <;> rfl
  | some w =>
    cases w with
    | dict d =>
      cases v with
      | dict u => exact absurd rfl (fun he => h d u rfl he)
      | str s => rfl
      | int n => rfl
      | other t g => rfl
      | list xs => rfl
    | str s => cases v <;> rfl
    | int n => cases v <;> rfl
    | other t g => cases v <;> rfl
    | list xs => cases v <;> rfl

/-- Full characterisation of `update_config` at each key, for updates with
pairwise-distinct keys (as Python dicts guarantee). -/
theorem update_config_spec :
    (config updates : List (String × CValue)) → (k : String) →
    keysDistinct updates = true →
    ((∀ d u, dictGet config k = some (.dict d) → dictGet updates k = some (.dict u) →
        dictGet (update_config config updates) k = some (.dict (update_config d u)))
     ∧ (∀ v, dictGet updates k = some v →
        (∀ d u, dictGet config k = some (.dict d) → v = .dict u → False) →
        dictGet (update_config config updates) k = some v)
     ∧ (dictGet updates k = none →
        dictGet (update_config config updates) k = dictGet config k))
  | config, [], k, _ =>
    ⟨fun _ _ _ hu => Option.noConfusion hu,
     fun _ hu _ => Option.noConfusion hu,
     fun _ => rfl⟩
  | config, (k0, v0) :: rest, k, hnd => by
    simp only [keysDistinct, Bool.and_eq_true, Bool.not_eq_eq_eq_not, Bool.not_true] at hnd
    obtain ⟨hnk, hrest⟩ := hnd
    by_cases hk : k0 = k
    · subst hk
      have hrnone : dictGet rest k0 = none := by
        unfold hasKey at hnk
        cases hg : dictGet rest k0 with
        | none => rfl
        | some w => rw [hg] at hnk; exact Bool.noConfusion hnk
      refine ⟨?_, ?_, ?_⟩
      · intro d u hc hu
        have hv0 : v0 = .dict u := by simpa [dictGet] using hu
        simp only [update_config]
        rw [update_config_untouched _ rest k0 hrnone, dictGet_dictSet_same, hc, hv0]
        rfl
      · intro v hu hnot
        have hv0 : v0 = v := by simpa [dictGet] using hu
        subst hv0
        simp only [update_config]
        rw [update_config_untouched _ rest k0 hrnone, dictGet_dictSet_same,
          mergeValue_not_dicts _ _ hnot]
      · intro hnone
        simp [dictGet] at hnone
    · have hupd : dictGet ((k0, v0) :: rest) k = dictGet rest k := by simp [dictGet, hk]
      have hc1 : dictGet (dictSet config k0 (mergeValue (dictGet config k0) v0)) k
          = dictGet config k := dictGet_dictSet_ne config k0 k _ hk
      have ih := update_config_spec
        (dictSet config k0 (mergeValue (dictGet config k0) v0)) rest k hrest
      refine ⟨?_, ?_, ?_⟩
      · intro d u hcfg hu
        rw [hupd] at hu
        simp only [update_config]
        exact ih.1 d u (hc1.trans hcfg) hu
      · intro v hu hnot
        rw [hupd] at hu
        simp only [update_config]
        refine ih.2.1 v hu ?_
        intro d u hcd hv
        exact hnot d u (hc1.symm.trans hcd) hv
      · intro hnone
        rw [hupd] at hnone
        simp only [update_config]
        rw [ih.2.2 hnone, hc1]

/-- C4: for dicts `config` and `updates` (distinct keys, as Python dicts
guarantee), `update_config` merges recursively at keys where both hold
dicts, replaces with `updates[k]` otherwise, and keeps every key of `config`
absent from `updates` unchanged. -/
theorem C4_update_config_merge (config updates : List (String × CValue)) (k : String)
    (hnd : keysDistinct updates = true) :
    (∀ d u, dictGet config k = some (.dict d) → dictGet updates k = some (.dict u) →
        dictGet (update_config config updates) k = some (.dict (update_config d u)))
    ∧ (∀ v, dictGet updates k = some v →
        (∀ d u, dictGet config k = some (.dict d) → v = .dict u → False) →
        dictGet (update_config config updates) k = some v)
    ∧ (dictGet updates k = none →
        dictGet (update_config config updates) k = dictGet config k) :=
  update_config_spec config updates k hnd

/-- Witness for C4 on a concrete merge: nested dicts merge recursively, a
fresh key is appended, an untouched key keeps its value. -/
theorem C4_update_config_merge_witness :
    dictGet (update_config
        [("a", .int 1), ("b", .dict [("x", .int 1), ("y", .int 2)])]
        [("b", .dict [("y", .int 9), ("z", .int 3)]), ("c", .str "new")]) "b"
      = some (.dict [("x", .int 1), ("y", .int 9), ("z", .int 3)])
    ∧ dictGet (update_config
        [("a", .int 1), ("b", .dict [("x", .int 1), ("y", .int 2)])]
        [("b", .dict [("y", .int 9), ("z", .int 3)]), ("c", .str "new")]) "c"
      = some (.str "new")
    ∧ dictGet (update_config
        [("a", .int 1), ("b", .dict [("x", .int 1), ("y", .int 2)])]
        [("b", .dict [("y", .int 9), ("z", .int 3)]), ("c", .str "new")]) "a"
      = some (.int 1) :=
  ⟨((C4_update_config_merge
      [("a", .int 1), ("b", .dict [("x", .int 1), ("y", .int 2)])]
      [("b", .dict [("y", .int 9), ("z", .int 3)]), ("c", .str "new")] "b" rfl).1
      [("x", .int 1), ("y", .int 2)] [("y", .int 9), ("z", .int 3)] rfl rfl).trans rfl,
   (C4_update_config_merge
      [("a", .int 1), ("b", .dict [("x", .int 1), ("y", .int 2)])]
      [("b", .dict [("y", .int 9), ("z", .int 3)]), ("c", .str "new")] "c" rfl).2.1
      (.str "new") rfl (fun _ _ hcd _ => Option.noConfusion hcd),
   ((C4_update_config_merge
      [("a", .int 1), ("b", .dict [("x", .int 1), ("y", .int 2)])]
      [("b", .dict [("y", .int 9), ("z", .int 3)]), ("c", .str "new")] "a" rfl).2.2
      rfl).trans rfl⟩
